import Mathlib

/-!
Verification of the sd-builder gulpfile (gulpfile.babel.js).

The gulpfile wires gulp/pro-gulp tasks around external tools (webpack,
eslint, mocha, browser-sync).  We embed the task definitions shallowly:

* filesystem paths are modelled as lists of path components (the source
  joins components with a slash);
* the filesystem is an association list from paths to file contents,
  together with the parsed dependency manifest (the source obtains it
  via JSON.parse of deps.json; we model the parsed value directly);
* a task invocation is a pure function from the environment and the
  filesystem to a record of written files, log lines and an outcome.

Semantics of the external orchestrator (pro-gulp, gulp.watch) and of the
external tool stages (eslint formatting/failing, process exit behaviour)
are not part of this repository; those definitions carry a doc comment
starting with "Modelled from the spec:".
-/

set_option maxRecDepth 40000

namespace SdBuilder

/-- A filesystem path, as its slash-separated components. -/
abbrev Path := List String

/-- The parsed dependency manifest deps.json: categorized external asset
paths (bundled-script dependencies, stylesheet paths, font paths). -/
structure Deps where
  js : List String
  css : List Path
  fonts : List Path
deriving DecidableEq

/-- The filesystem state: text files plus the parsed deps.json manifest. -/
structure FS where
  files : List (Path × String)
  deps : Deps
deriving DecidableEq

/-- The process environment: working directory and environment variables. -/
structure Env where
  cwd : Path
  vars : List (String × String)
deriving DecidableEq

def lookupVar (e : Env) (k : String) : Option String :=
  (e.vars.find? (fun p => p.1 == k)).map (·.2)

/-- Line 20: `const {NODE_ENV = "development"} = process.env;`. -/
def NODE_ENV (e : Env) : String := (lookupVar e "NODE_ENV").getD "development"

/-- Line 21: the test sources directory. -/
def testDir (e : Env) : Path := e.cwd ++ ["test"]

/-- Line 22: the application sources directory. -/
def appDir (e : Env) : Path := e.cwd ++ ["app"]

/-- Line 23: the build output directory. -/
def buildDir (e : Env) : Path := e.cwd ++ ["build"]

/-- Line 24: the dependency manifest path. -/
def depsPath (e : Env) : Path := e.cwd ++ ["deps.json"]

/-- Successful file read: the content when the path exists. -/
def readFile (fs : FS) (p : Path) : Option String :=
  (fs.files.find? (fun q => q.1 == p)).map (·.2)

/-- `fs.readFileSync`: content, or an ENOENT error for a missing path. -/
def readFileSync (fs : FS) (p : Path) : Except String String :=
  match readFile fs p with
  | some c => .ok c
  | none => .error ("ENOENT: no such file or directory, open " ++ String.intercalate "/" p)

/-- `JSON.parse(fs.readFileSync(depsPath))`: the manifest as currently on disk. -/
def readDepsSync (fs : FS) : Deps := fs.deps

/-- How a task invocation settles: normally, or with a propagated error. -/
inductive Outcome
  | ok
  | fail (msg : String)
deriving DecidableEq

/-- The observable effects of one task invocation. -/
structure TaskRun where
  written : List (Path × String)
  logs : List String
  outcome : Outcome
deriving DecidableEq

/-- Modelled from the spec: how a finished task maps to the process exit
status (missing here: gulp's CLI driver).  A task whose outcome is an
error fails the invocation with a non-zero status; otherwise status 0. -/
def taskRunExitCode (t : TaskRun) : Nat :=
  match t.outcome with
  | .ok => 0
  | .fail _ => 1

/-- Lines 32-36, buildMainHtml: read app/main.html, rename it to
index.html, write it at the output root.  gulp.src of a non-matching
glob emits nothing, so a missing source writes nothing. -/
def buildMainHtml (e : Env) (fs : FS) : TaskRun :=
  match readFile fs (appDir e ++ ["main.html"]) with
  | some c => { written := [(buildDir e ++ ["index.html"], c)], logs := [], outcome := .ok }
  | none => { written := [], logs := [], outcome := .ok }

/-- Lines 78-81, buildAppAssets: copy every file under app/assets into
build/_assets, preserving the path relative to the glob base. -/
def buildAppAssets (e : Env) (fs : FS) : TaskRun :=
  { written := fs.files.filterMap (fun pc =>
      if (appDir e ++ ["assets"]).isPrefixOf pc.1 then
        some (buildDir e ++ ["_assets"] ++ pc.1.drop (appDir e ++ ["assets"]).length, pc.2)
      else none),
    logs := [], outcome := .ok }

/-- dotenv.parse: `KEY=VALUE` lines to key/value pairs.  Surrounding
double quotes of a value are stripped; malformed lines are ignored. -/
def dotenvParse (s : String) : List (String × String) :=
  (s.splitOn "\n").filterMap (fun line =>
    match line.splitOn "=" with
    | [] => none
    | [_] => none
    | k :: rest =>
        let key := k.trim
        let v := (String.intercalate "=" rest).trim
        let v := if v.length ≥ 2 && v.startsWith "\"" && v.endsWith "\"" then
          (v.drop 1).dropRight 1 else v
        if key = "" then none else some (key, v))

def jsonEscape (s : String) : String :=
  s.foldl (fun acc c =>
    acc ++ (if c = '\\' then "\\\\"
            else if c = '"' then "\\\""
            else if c = '\n' then "\\n"
            else String.singleton c)) ""

/-- `JSON.stringify(config, null, 4)` for a flat string-to-string object. -/
def jsonStringify (kvs : List (String × String)) : String :=
  match kvs with
  | [] => "\x7b\x7d"
  | _ => "\x7b\n" ++ String.intercalate ",\n"
      (kvs.map (fun kv => "    \"" ++ jsonEscape kv.1 ++ "\": \"" ++ jsonEscape kv.2 ++ "\""))
      ++ "\n\x7d"

/-- The generated runtime-configuration script body (line 91). -/
def appConfigCode (envContent : String) : String :=
  "window.APP_CONFIG = " ++ jsonStringify (dotenvParse envContent) ++ ";"

/-- Lines 88-92, the body of the try block of buildDevAppConfig: read
.env from the working directory, parse it, write app-config.js at the
output root.  Any failure is surfaced as an error for the catch. -/
def buildDevAppConfigBody (e : Env) (fs : FS) : Except String (List (Path × String)) :=
  match readFileSync fs (e.cwd ++ [".env"]) with
  | .error m => .error m
  | .ok envContent => .ok [(buildDir e ++ ["app-config.js"], appConfigCode envContent)]

/-- Lines 83-97, buildDevAppConfig: in a non-development mode, return
without doing anything; otherwise run the body under a catch that logs
"Error building app config" and the error message, never rethrowing. -/
def buildDevAppConfig (e : Env) (fs : FS) : TaskRun :=
  if NODE_ENV e ≠ "development" then
    { written := [], logs := [], outcome := .ok }
  else
    match buildDevAppConfigBody e fs with
    | .ok w => { written := w, logs := [], outcome := .ok }
    | .error m =>
        { written := [], logs := ["Error building app config", m], outcome := .ok }

/-- Lines 99-104, buildVendorStyles: re-read the manifest, concatenate
the stylesheet files into vendor.css under build/_assets/css. -/
def buildVendorStyles (e : Env) (fs : FS) : TaskRun :=
  let deps := readDepsSync fs
  { written := [(buildDir e ++ ["_assets", "css", "vendor.css"],
      String.intercalate "\n" (deps.css.filterMap (readFile fs)))],
    logs := [], outcome := .ok }

/-- Lines 106-110, buildVendorFonts: re-read the manifest, copy each font
file into build/_assets/fonts (flat, under the file's base name). -/
def buildVendorFonts (e : Env) (fs : FS) : TaskRun :=
  let deps := readDepsSync fs
  { written := deps.fonts.filterMap (fun p =>
      (readFile fs p).map (fun c => (buildDir e ++ ["_assets", "fonts"] ++ [p.getLastD ""], c))),
    logs := [], outcome := .ok }

/-- The webpack compiler configuration built at lines 41-74.  The single
output filename strings of the source are modelled as directory plus
base name. -/
structure WebpackConfig where
  entryApp : Path
  entryVendor : List String
  devtool : String
  outputDir : Path
  outputName : String
  commonsChunkName : String
  commonsChunkDir : Path
  commonsChunkFile : String
deriving DecidableEq

/-- Lines 41-74: the configuration object passed to `webpack(...)`. -/
def webpackConfig (e : Env) (deps : Deps) : WebpackConfig :=
  { entryApp := appDir e ++ ["main.jsx"]
    entryVendor := deps.js
    devtool := "source-map"
    outputDir := buildDir e ++ ["_assets", "js"]
    outputName := "app.js"
    commonsChunkName := "vendor"
    commonsChunkDir := buildDir e ++ ["_assets", "js"]
    commonsChunkFile := "vendor.js" }

/-- State created once, when the module is loaded: the immediately
invoked function at lines 38-76 reads deps.json and constructs the
webpack compiler; the registered buildAllScripts task is the promisified
run method of that one compiler. -/
structure ModuleState where
  compiler : WebpackConfig
deriving DecidableEq

/-- Module load (the IIFE at lines 38-76): the manifest is read and the
compiler constructed from the filesystem as it is at load time. -/
def moduleInit (e : Env) (fs : FS) : ModuleState :=
  { compiler := webpackConfig e (readDepsSync fs) }

/-- The files a run of the compiler writes: each chunk and, because
devtool is "source-map", a `.map` file next to it. -/
def compilerOutputs (c : WebpackConfig) : List Path :=
  [c.outputDir ++ [c.outputName],
   c.outputDir ++ [c.outputName ++ ".map"],
   c.commonsChunkDir ++ [c.commonsChunkFile],
   c.commonsChunkDir ++ [c.commonsChunkFile ++ ".map"]]

/-- An invocation of the registered buildAllScripts task: it runs the
compiler captured at module load; the current filesystem is consulted
only for the bundle contents (left opaque), never for the manifest. -/
def buildAllScripts (st : ModuleState) (_fsNow : FS) : TaskRun :=
  { written := (compilerOutputs st.compiler).map (fun p => (p, "<bundle>")),
    logs := [], outcome := .ok }

/-- One file's result from the external linter: its violations. -/
structure LintFileResult where
  file : Path
  violations : List String
deriving DecidableEq

def hasViolations (rs : List LintFileResult) : Bool :=
  rs.any (fun r => !r.violations.isEmpty)

/-- Modelled from the spec: the formatter stage of the external linter
(gp.eslint.format, not part of this repository) prints a formatted
report line for every file with violations. -/
def eslintFormat (rs : List LintFileResult) : List String :=
  rs.filterMap (fun r =>
    if r.violations.isEmpty then none
    else some (String.intercalate "/" r.file ++ ": " ++ String.intercalate "; " r.violations))

/-- Modelled from the spec: the failing stage of the external linter
(gp.eslint.failAfterError, not part of this repository) fails the
stream when violations are present, once all results are through. -/
def eslintFailAfterError (rs : List LintFileResult) : Outcome :=
  if hasViolations rs then .fail "Failed with lint violations" else .ok

/-- Lines 129-141, the lint task: pipe the linter results through the
formatter stage and then the failing stage, in that order, so the
report is printed before the stream fails. -/
def lint (rs : List LintFileResult) : TaskRun :=
  { written := [], logs := eslintFormat rs, outcome := eslintFailAfterError rs }

/-- What a gulp stream reports to its consumer when it finishes. -/
inductive StreamSignal
  | endSignal
  | errorSignal (msg : String)
deriving DecidableEq

/-- Lines 158-161: the error handler of the test task's stream; it
discards the error and emits "end" instead ("Swallow errors"). -/
def testErrorHandler (_msg : String) : StreamSignal := .endSignal

/-- Lines 149-162, the test task: spawn the external test runner over
the test sources; an error event from the runner goes through the
swallowing handler, a clean run ends the stream normally. -/
def testTask (runner : Except String Unit) : StreamSignal :=
  match runner with
  | .ok _ => .endSignal
  | .error m => testErrorHandler m

/-- Modelled from the spec: gulp's driver (not part of this repository)
exits non-zero when a task's stream errors and zero when it ends. -/
def streamExitCode (s : StreamSignal) : Nat :=
  match s with
  | .endSignal => 0
  | .errorSignal _ => 1

/-- The browser-sync options object built at lines 173-185.  The `files`
glob `buildDir/**/*` is modelled as its base directory. -/
structure BrowserSyncOptions where
  baseDir : Path
  spaFallback : Bool
  filesBase : Path
  port : Nat
  ghostMode : Bool
  injectChanges : Bool
  notify : Bool
  autoOpen : Bool
  reloadDebounce : Nat
deriving DecidableEq

/-- Lines 172-186, setupDevServer: start browser-sync serving the build
directory with the history-api-fallback middleware, watching the whole
build directory for reloads, on port 8080, with ghost mode, change
injection, the notify UI and auto-open all disabled. -/
def setupDevServer (e : Env) : BrowserSyncOptions :=
  { baseDir := buildDir e
    spaFallback := true
    filesBase := buildDir e
    port := 8080
    ghostMode := false
    injectChanges := false
    notify := false
    autoOpen := false
    reloadDebounce := 1000 }

/-- The per-binding state of the watch coordinator. -/
inductive WatchState
  | idle
  | triggered
  | running
  | runningPending
deriving DecidableEq

/-- Events a watch binding reacts to. -/
inductive WatchEvent
  | change
  | debounceExpire
  | complete
deriving DecidableEq

/-- Modelled from the spec: the per-binding state machine of the watch
coordinator (the coordination itself lives in gulp.watch/pro-gulp, not
in this repository).  A change while idle arms the debounce; further
changes while armed or while a run is in flight are coalesced; when the
debounce expires a single run starts; completion of a run with a change
pending re-arms the debounce for exactly one more run.  The returned
Bool tells whether this step starts a run. -/
def watchStep : WatchState → WatchEvent → WatchState × Bool
  | .idle, .change => (.triggered, false)
  | .idle, .debounceExpire => (.idle, false)
  | .idle, .complete => (.idle, false)
  | .triggered, .change => (.triggered, false)
  | .triggered, .debounceExpire => (.running, true)
  | .triggered, .complete => (.triggered, false)
  | .running, .change => (.runningPending, false)
  | .running, .debounceExpire => (.running, false)
  | .running, .complete => (.idle, false)
  | .runningPending, .change => (.runningPending, false)
  | .runningPending, .debounceExpire => (.runningPending, false)
  | .runningPending, .complete => (.triggered, false)

/-- How many executions of the bound task are in flight in a state. -/
def inFlight : WatchState → Nat
  | .running => 1
  | .runningPending => 1
  | _ => 0

/-- Run a binding over a list of events, counting the runs started. -/
def watchRunCount : WatchState → List WatchEvent → WatchState × Nat
  | s, [] => (s, 0)
  | s, e :: es =>
      let step := watchStep s e
      let rest := watchRunCount step.1 es
      (rest.1, (if step.2 then 1 else 0) + rest.2)

/-- A task definition in the orchestrator's registry. -/
inductive TaskDef
  | leaf
  | par (members : List String)
  | seq (members : List String)
deriving DecidableEq

/-- The task registry populated by this gulpfile: the six build leaves,
the parallel "build" group (lines 112-119), the lint, test, dev-server
and watcher leaves, the sequential "dev" group (lines 215-220) and the
usage-printing default task. -/
def registry (n : String) : Option TaskDef :=
  if n = "buildMainHtml" ∨ n = "buildAllScripts" ∨ n = "buildAppAssets" ∨
     n = "buildDevAppConfig" ∨ n = "buildVendorStyles" ∨ n = "buildVendorFonts" ∨
     n = "lint" ∨ n = "test" ∨ n = "setupDevServer" ∨ n = "setupWatchers" ∨
     n = "default" then
    some .leaf
  else if n = "build" then
    some (.par ["buildMainHtml", "buildAllScripts", "buildAppAssets",
                "buildDevAppConfig", "buildVendorStyles", "buildVendorFonts"])
  else if n = "dev" then
    some (.seq ["build", "test", "setupDevServer", "setupWatchers"])
  else
    none

/-- The member list of the "build" group (lines 112-119). -/
def buildMembers : List String :=
  ["buildMainHtml", "buildAllScripts", "buildAppAssets",
   "buildDevAppConfig", "buildVendorStyles", "buildVendorFonts"]

/-- An event in an execution trace. -/
inductive ExecEvent
  | starts (n : String)
  | settles (n : String)
deriving DecidableEq

/-- Modelled from the spec: the executor semantics of the orchestrator
(pro-gulp, not part of this repository), as one admissible linearized
trace.  A sequential group runs its members one at a time, each settling
fully before the next starts; a parallel group's members all settle
before the group does; the listed order of a parallel group's members is
one admissible interleaving.  Recursion is bounded by fuel; the
gulpfile's graph is three levels deep. -/
def execTrace : Nat → String → List ExecEvent
  | 0, _ => []
  | Nat.succ fuel, n =>
      match registry n with
      | some .leaf => [.starts n, .settles n]
      | some (.par ms) => [.starts n] ++ (ms.map (fun m => execTrace fuel m)).flatten ++ [.settles n]
      | some (.seq ms) => [.starts n] ++ (ms.map (fun m => execTrace fuel m)).flatten ++ [.settles n]
      | none => []

/-- ANSI green colouring, as gp.util.colors.green renders it. -/
def ansiGreen (s : String) : String := "\x1b[32m" ++ s ++ "\x1b[39m"

/-- ANSI blue colouring, as gp.util.colors.blue renders it. -/
def ansiBlue (s : String) : String := "\x1b[34m" ++ s ++ "\x1b[39m"

/-- Lines 228-238, the default task: print the usage listing; nothing is
written and the task finishes normally. -/
def defaultTask : TaskRun :=
  { written := []
    logs :=
      ["",
       "Usage: " ++ ansiBlue "sd-builder [TASK]",
       "",
       "Available tasks:",
       "  " ++ ansiGreen "build" ++ "    build the project",
       "  " ++ ansiGreen "dev" ++ "      set up dev environment with auto-recompiling",
       "  " ++ ansiGreen "lint" ++ "     lints application source code",
       "  " ++ ansiGreen "test" ++ "     runs tests",
       ""]
    outcome := .ok }

/-- The usage text printed by the default task, as one string. -/
def usageText : String := String.intercalate "\n" defaultTask.logs

theorem isPrefixOf_append_self (l r : List String) : l.isPrefixOf (l ++ r) = true := by
  rw [List.isPrefixOf_iff_prefix]
  exact List.prefix_append l r

/-- Claim C1 counterexample: when the external test runner reports a
failure, the test task's error handler swallows it and the stream ends
normally, so the process exits with status zero, not non-zero. -/
theorem c1_counterexample :
    testTask (Except.error "2 tests failed") = StreamSignal.endSignal ∧
    streamExitCode (testTask (Except.error "2 tests failed")) = 0 :=
  ⟨rfl, rfl⟩

/-- Claim C1, amended: whatever the external test runner reports, the
test task ends its stream normally (the error handler emits "end"
instead of propagating), and the process exit status is zero; neither
the task name nor the runner's message is surfaced as a task failure. -/
theorem c1_claim (r : Except String Unit) :
    testTask r = StreamSignal.endSignal ∧ streamExitCode (testTask r) = 0 := by
  cases r <;> exact ⟨rfl, rfl⟩

/-- Claim C4 counterexample: the dev server port is hard-coded, not
configurable: two environments, one of them requesting a different
port, both get port 8080. -/
theorem c4_counterexample :
    (setupDevServer ⟨["proj"], []⟩).port = 8080 ∧
    (setupDevServer ⟨["proj"], [("PORT", "3000")]⟩).port = 8080 :=
  ⟨rfl, rfl⟩

/-- Claim C4, amended: for every environment the dev server serves the
build output directory with single-page-application fallback routing,
watches the whole output directory to trigger reloads, listens on the
fixed (not configurable) port 8080, and has cross-client state syncing
(ghost mode) and the startup notification UI disabled. -/
theorem c4_claim (e : Env) :
    (setupDevServer e).baseDir = buildDir e ∧
    (setupDevServer e).spaFallback = true ∧
    (setupDevServer e).filesBase = buildDir e ∧
    (setupDevServer e).port = 8080 ∧
    (setupDevServer e).ghostMode = false ∧
    (setupDevServer e).notify = false :=
  ⟨rfl, rfl, rfl, rfl, rfl, rfl⟩

/-- Claim C5: buildDevAppConfig never propagates a failure — its outcome
is normal for every environment and filesystem — and when its body (the
read/parse/write of the try block) fails in development mode, the task
itself logs "Error building app config" followed by the error message. -/
theorem c5_claim (e : Env) (fs : FS) :
    (buildDevAppConfig e fs).outcome = Outcome.ok ∧
    taskRunExitCode (buildDevAppConfig e fs) = 0 ∧
    (∀ m, NODE_ENV e = "development" → buildDevAppConfigBody e fs = Except.error m →
      (buildDevAppConfig e fs).logs = ["Error building app config", m]) := by
  unfold buildDevAppConfig
  by_cases h : NODE_ENV e = "development"
  · cases hb : buildDevAppConfigBody e fs <;>
      simp [h, hb, taskRunExitCode]
  · simp [h, taskRunExitCode]

/-- Claim C5 witness: with no .env file in the working directory, the
body fails and the task logs the two lines while still succeeding. -/
theorem c5_witness :
    (buildDevAppConfig ⟨["p"], []⟩ ⟨[], ⟨[], [], []⟩⟩).outcome = Outcome.ok ∧
    (buildDevAppConfig ⟨["p"], []⟩ ⟨[], ⟨[], [], []⟩⟩).logs =
      ["Error building app config", "ENOENT: no such file or directory, open p/.env"] :=
  ⟨(c5_claim ⟨["p"], []⟩ ⟨[], ⟨[], [], []⟩⟩).1,
   (c5_claim ⟨["p"], []⟩ ⟨[], ⟨[], [], []⟩⟩).2.2
     "ENOENT: no such file or directory, open p/.env" rfl rfl⟩

/-- Claim C9: the default task's usage listing contains each of the task
names build, dev, lint and test, the task finishes normally (exit status
zero) and writes no file. -/
theorem c9_claim :
    List.IsInfix "build".toList usageText.toList ∧
    List.IsInfix "dev".toList usageText.toList ∧
    List.IsInfix "lint".toList usageText.toList ∧
    List.IsInfix "test".toList usageText.toList ∧
    defaultTask.written = [] ∧
    taskRunExitCode defaultTask = 0 :=
  ⟨by decide, by decide, by decide, by decide, rfl, rfl⟩

/-- Claim C10: the webpack compiler is the one constructed at module
load; an invocation of buildAllScripts gives the same result whatever
the filesystem looks like at invocation time, its vendor entry list is
the js list of the manifest as it was at load time, and only a fresh
module load (process restart) picks up a changed manifest. -/
theorem c10_claim (e : Env) (fs0 fsNow fsNow' : FS) :
    buildAllScripts (moduleInit e fs0) fsNow = buildAllScripts (moduleInit e fs0) fsNow' ∧
    (moduleInit e fs0).compiler = webpackConfig e (readDepsSync fs0) ∧
    (moduleInit e fs0).compiler.entryVendor = fs0.deps.js ∧
    (moduleInit e fsNow).compiler.entryVendor = fsNow.deps.js :=
  ⟨rfl, rfl, rfl, rfl⟩

/-- Claim C2 counterexample: the asset subdirectories of the output are
named `_assets`, not `assets`: for a concrete environment the bundled
script directory is build/_assets/js, which differs from build/assets/js. -/
theorem c2_counterexample :
    (moduleInit ⟨["proj"], []⟩ ⟨[], ⟨[], [], []⟩⟩).compiler.outputDir =
      ["proj", "build", "_assets", "js"] ∧
    ["proj", "build", "_assets", "js"] ≠ ["proj", "build", "assets", "js"] :=
  ⟨rfl, by decide⟩

/-- Claim C2, amended: every build leaves artifacts at the layout of the
source, with the asset subdirectory named `_assets`: index.html at the
output root; the bundled application script and its source map (and the
vendor chunk and its map) under `_assets/js`; copied static assets under
`_assets`; the concatenated vendor stylesheet at `_assets/css/vendor.css`;
vendor fonts under `_assets/fonts`; and the generated runtime
configuration, when emitted, at `app-config.js` in the output root. -/
theorem c2_claim (e : Env) (fs : FS) :
    (buildMainHtml e fs).written.all
      (fun pc => pc.1 == buildDir e ++ ["index.html"]) = true ∧
    (moduleInit e fs).compiler.outputDir = buildDir e ++ ["_assets", "js"] ∧
    (compilerOutputs (moduleInit e fs).compiler).all
      (fun p => (buildDir e ++ ["_assets", "js"]).isPrefixOf p) = true ∧
    (buildAppAssets e fs).written.all
      (fun pc => (buildDir e ++ ["_assets"]).isPrefixOf pc.1) = true ∧
    (buildVendorStyles e fs).written.all
      (fun pc => pc.1 == buildDir e ++ ["_assets", "css", "vendor.css"]) = true ∧
    (buildVendorFonts e fs).written.all
      (fun pc => (buildDir e ++ ["_assets", "fonts"]).isPrefixOf pc.1) = true ∧
    (buildDevAppConfig e fs).written.all
      (fun pc => pc.1 == buildDir e ++ ["app-config.js"]) = true := by
  refine ⟨?_, rfl, ?_, ?_, ?_, ?_, ?_⟩
  · unfold buildMainHtml
    cases readFile fs (appDir e ++ ["main.html"]) <;> simp
  · simp only [moduleInit, webpackConfig, compilerOutputs, readDepsSync, List.all_eq_true]
    intro p hp
    simp only [List.mem_cons, List.not_mem_nil, or_false] at hp
    rcases hp with h | h | h | h <;> subst h <;> exact isPrefixOf_append_self _ _
  · simp only [buildAppAssets, List.all_eq_true]
    intro pc hpc
    simp only [List.mem_filterMap] at hpc
    obtain ⟨a, _, ha⟩ := hpc
    by_cases hpre : (appDir e ++ ["assets"]).isPrefixOf a.1
    · simp only [hpre, if_true, Option.some.injEq] at ha
      subst ha
      exact isPrefixOf_append_self _ _
    · simp [hpre] at ha
  · simp only [buildVendorStyles, readDepsSync, List.all_cons, List.all_nil]
    simp
  · simp only [buildVendorFonts, readDepsSync, List.all_eq_true]
    intro pc hpc
    simp only [List.mem_filterMap] at hpc
    obtain ⟨p, _, hp⟩ := hpc
    cases hr : readFile fs p with
    | none => simp [hr] at hp
    | some c =>
        rw [hr] at hp
        simp only [Option.map_some', Option.some.injEq] at hp
        subst hp
        exact isPrefixOf_append_self _ _
  · unfold buildDevAppConfig
    by_cases h : NODE_ENV e = "development"
    · simp only [h]
      cases hb : buildDevAppConfigBody e fs with
      | error m => simp
      | ok w =>
          unfold buildDevAppConfigBody at hb
          cases hr : readFileSync fs (e.cwd ++ [".env"]) with
          | error m => simp [hr] at hb
          | ok c =>
              simp only [hr, Except.ok.injEq] at hb
              subst hb
              simp
    · simp [h]

/-- Claim C3: for every watch binding, (a) a run is started only in a
state with no execution in flight, (b) at most one execution is in
flight in any state, and (c) if any number of change events arrive
while the bound task is running, then after the current run completes
and the debounce expires, exactly one additional run is started. -/
theorem c3_claim :
    (∀ s e, (watchStep s e).2 = true → inFlight s = 0) ∧
    (∀ s, inFlight s ≤ 1) ∧
    (∀ n : Nat, watchRunCount WatchState.running
        (List.replicate (n + 1) WatchEvent.change ++
          [WatchEvent.complete, WatchEvent.debounceExpire]) =
      (WatchState.running, 1)) := by
  refine ⟨fun s e => by cases s <;> cases e <;> decide, fun s => by cases s <;> decide, ?_⟩
  intro n
  have pending : ∀ (k : Nat) (rest : List WatchEvent),
      watchRunCount WatchState.runningPending (List.replicate k WatchEvent.change ++ rest) =
      watchRunCount WatchState.runningPending rest := by
    intro k
    induction k with
    | zero => intro rest; rfl
    | succ j ih =>
        intro rest
        simpa [List.replicate_succ, watchRunCount, watchStep] using ih rest
  calc watchRunCount WatchState.running
        (List.replicate (n + 1) WatchEvent.change ++
          [WatchEvent.complete, WatchEvent.debounceExpire])
      = watchRunCount WatchState.runningPending
          (List.replicate n WatchEvent.change ++
            [WatchEvent.complete, WatchEvent.debounceExpire]) := by
        simp [List.replicate_succ, watchRunCount, watchStep]
    _ = watchRunCount WatchState.runningPending
          [WatchEvent.complete, WatchEvent.debounceExpire] := pending n _
    _ = (WatchState.running, 1) := rfl

/-- Claim C3 witness: starting a run (triggered state, debounce expiry)
happens with no execution in flight, and three changes while running
followed by completion and debounce expiry start exactly one more run. -/
theorem c3_witness :
    inFlight WatchState.triggered = 0 ∧
    watchRunCount WatchState.running
      (List.replicate 3 WatchEvent.change ++
        [WatchEvent.complete, WatchEvent.debounceExpire]) =
      (WatchState.running, 1) :=
  ⟨c3_claim.1 WatchState.triggered WatchEvent.debounceExpire (by decide),
   c3_claim.2.2 2⟩

/-- Claim C6 counterexample: with NODE_ENV absent the mode is
development, yet when the .env file is missing the task emits nothing,
so "emits exactly when the mode is development" fails. -/
theorem c6_counterexample :
    NODE_ENV ⟨["p"], []⟩ = "development" ∧
    (buildDevAppConfig ⟨["p"], []⟩ ⟨[], ⟨[], [], []⟩⟩).written = [] := by
  refine ⟨rfl, ?_⟩
  decide

/-- Claim C6, amended: NODE_ENV defaults to development when absent; the
task emits the app-config.js artifact in the output directory exactly
when the mode is development and the environment file can be read; in
any non-development mode it returns without writing or logging. -/
theorem c6_claim (e : Env) (fs : FS) :
    (lookupVar e "NODE_ENV" = none → NODE_ENV e = "development") ∧
    (NODE_ENV e ≠ "development" →
      (buildDevAppConfig e fs).written = [] ∧ (buildDevAppConfig e fs).logs = []) ∧
    ((buildDevAppConfig e fs).written ≠ [] ↔
      NODE_ENV e = "development" ∧ (readFileSync fs (e.cwd ++ [".env"])).isOk = true) ∧
    (∀ c, NODE_ENV e = "development" → readFile fs (e.cwd ++ [".env"]) = some c →
      (buildDevAppConfig e fs).written =
        [(buildDir e ++ ["app-config.js"], appConfigCode c)]) := by
  refine ⟨?_, ?_, ?_, ?_⟩
  · intro h; simp [NODE_ENV, h]
  · intro h; unfold buildDevAppConfig; simp [h]
  · unfold buildDevAppConfig buildDevAppConfigBody
    by_cases h : NODE_ENV e = "development"
    · cases hr : readFileSync fs (e.cwd ++ [".env"]) <;>
        simp [h, hr, Except.isOk, Except.toBool]
    · simp [h]
  · intro c hdev hread
    unfold buildDevAppConfig buildDevAppConfigBody readFileSync
    simp [hdev, hread]

/-- Claim C6 witness: a development environment with a readable .env
gets app-config.js written at the output root; an environment with
NODE_ENV=production writes and logs nothing. -/
theorem c6_witness :
    (buildDevAppConfig ⟨["p"], []⟩ ⟨[(["p", ".env"], "A=1")], ⟨[], [], []⟩⟩).written =
      [(["p", "build", "app-config.js"], appConfigCode "A=1")] ∧
    (buildDevAppConfig ⟨["p"], [("NODE_ENV", "production")]⟩ ⟨[], ⟨[], [], []⟩⟩).written = [] :=
  ⟨(c6_claim ⟨["p"], []⟩ ⟨[(["p", ".env"], "A=1")], ⟨[], [], []⟩⟩).2.2.2 "A=1" rfl rfl,
   ((c6_claim ⟨["p"], [("NODE_ENV", "production")]⟩ ⟨[], ⟨[], [], []⟩⟩).2.1 (by decide)).1⟩

/-- Claim C7: in the dev task's execution trace the dev server is
started exactly once, its start comes after every member of the build
group (and the build group itself) has settled, and the server watches
the build output directory for changes, which is how it is notified of
subsequent rebuilds. -/
theorem c7_claim :
    (execTrace 4 "dev").count (ExecEvent.starts "setupDevServer") = 1 ∧
    buildMembers.all (fun m =>
      decide ((execTrace 4 "dev").indexOf (ExecEvent.settles m) <
        (execTrace 4 "dev").indexOf (ExecEvent.starts "setupDevServer"))) = true ∧
    (execTrace 4 "dev").indexOf (ExecEvent.settles "build") <
      (execTrace 4 "dev").indexOf (ExecEvent.starts "setupDevServer") ∧
    (∀ e : Env, (setupDevServer e).filesBase = buildDir e) :=
  ⟨by decide, by decide, by decide, fun _ => rfl⟩

theorem eslintFormat_ne_nil (rs : List LintFileResult) (h : hasViolations rs = true) :
    eslintFormat rs ≠ [] := by
  induction rs with
  | nil => exact absurd h (by decide)
  | cons r t ih =>
      cases hv : r.violations with
      | nil =>
          have ht : hasViolations t = true := by
            unfold hasViolations at h ⊢
            rw [List.any_cons, hv] at h
            simpa using h
          simpa [eslintFormat, List.filterMap_cons, hv] using ih ht
      | cons v vs =>
          simp [eslintFormat, List.filterMap_cons, hv]

/-- Claim C8: whenever the linter finds any violation, the lint task
fails the process with a non-zero exit status, and its log output is the
formatter stage's non-empty report, printed before the failing stage
acts (the formatter precedes the failing stage in the pipeline). -/
theorem c8_claim (rs : List LintFileResult) (h : hasViolations rs = true) :
    taskRunExitCode (lint rs) ≠ 0 ∧
    (lint rs).logs = eslintFormat rs ∧
    (lint rs).logs ≠ [] :=
  ⟨by simp [lint, taskRunExitCode, eslintFailAfterError, h], rfl,
   eslintFormat_ne_nil rs h⟩

/-- Claim C8 witness: a single file with one violation makes the lint
task exit non-zero with a non-empty report equal to the formatter's. -/
theorem c8_witness :
    hasViolations [⟨["app", "a.js"], ["no-unused-vars"]⟩] = true ∧
    (taskRunExitCode (lint [⟨["app", "a.js"], ["no-unused-vars"]⟩]) ≠ 0 ∧
      (lint [⟨["app", "a.js"], ["no-unused-vars"]⟩]).logs =
        eslintFormat [⟨["app", "a.js"], ["no-unused-vars"]⟩] ∧
      (lint [⟨["app", "a.js"], ["no-unused-vars"]⟩]).logs ≠ []) :=
  ⟨by decide, c8_claim [⟨["app", "a.js"], ["no-unused-vars"]⟩] (by decide)⟩

end SdBuilder
